import Mathlib

/-!
Verification of the DSView sample-snapshot store
(`src/DSView/pv/data/snapshot.cpp` and `src/DSView/pv/data/dsosnapshot.cpp`)
against its natural-language specification.

The C++ classes `Snapshot` and `DsoSnapshot` are embedded shallowly as a
single Lean structure `DsoSnapshot` (the derived class owns every base
field).  Machine `uint64_t` arithmetic is modelled as `Nat` with an
explicit `% U64` wherever the C computation can wrap.  Raw `malloc` /
`free` buffers are modelled as `Option (Nat → Nat)` (a byte store;
`none` is the NULL pointer), and `malloc` success is decided by an
explicit allocation oracle passed to `first_payload`.  The member
functions are translated statement by statement from the source.
-/

/-- Two to the 64: the modulus of the C `uint64_t` arithmetic. -/
def U64 : Nat := 2 ^ 64

/-- `DsoSnapshot::EnvelopeScalePower` (dsosnapshot.cpp line 36). -/
def EnvelopeScalePower : Nat := 8

/-- `DsoSnapshot::EnvelopeScaleFactor = 1 << EnvelopeScalePower` (line 37). -/
def EnvelopeScaleFactor : Nat := 2 ^ EnvelopeScalePower

/-- `DsoSnapshot::EnvelopeDataUnit = 4*1024` (line 40). -/
def EnvelopeDataUnit : Nat := 4 * 1024

/-- `DsoSnapshot::VrmsScaleFactor = 1 << 8` (line 42). -/
def VrmsScaleFactor : Nat := 2 ^ 8

/-- Modelled from the spec: `ScaleStepCount` lives in dsosnapshot.h, which is
not under src/; the spec fixes a small constant number of pyramid levels per
channel (8 to 10 in the reference design).  DSView uses 10 levels. -/
def ScaleStepCount : Nat := 10

/-- Modelled from the spec: `LeafBlockPower` lives in snapshot.h, which is not
under src/; the spec fixes a constant leaf block size used to decompose the
raw buffer for serialization.  The reference design uses 2^20-byte blocks. -/
def LeafBlockPower : Nat := 20

/-- Modelled from the spec: `LeafBlockSamples` is the constant leaf block
size, `2 ^ LeafBlockPower` bytes. -/
def LeafBlockSamples : Nat := 2 ^ LeafBlockPower

/-- Modelled from the spec: `LeafMask = LeafBlockSamples - 1`, the mask used
by `get_block_num` to test for a partial final block. -/
def LeafMask : Nat := LeafBlockSamples - 1

/-- One min/max pair of an envelope level (struct `EnvelopeSample`). -/
structure EnvelopeSample where
  min : Nat
  max : Nat
deriving Repr, DecidableEq

/-- One envelope level of one channel (struct `Envelope`): `length` is the
number of valid min/max pairs, `data_length` the tracked capacity, and
`samples` the malloc'ed backing array (`none` = NULL). -/
structure Envelope where
  length : Nat
  data_length : Nat
  samples : Option (Nat → EnvelopeSample)

/-- A zeroed `Envelope`, as produced by `memset(_envelope_levels, 0, ...)`. -/
def emptyEnvelope : Envelope := { length := 0, data_length := 0, samples := none }

/-- The payload struct `sr_datafeed_dso`: the fields read by `DsoSnapshot`
(`data`, `num_samples`, `samplerate_tog`). -/
structure SrDatafeedDso where
  data : Nat → Nat
  num_samples : Nat
  samplerate_tog : Bool

/-- The state of one `DsoSnapshot` object, fields of the `Snapshot` base
class included.  `_ch_index` and `_unit_pitch` are never read by any claim
and are omitted. -/
structure DsoSnapshot where
  data : Option (Nat → Nat)
  capacity : Nat
  channel_num : Nat
  sample_count : Nat
  total_sample_count : Nat
  ring_sample_count : Nat
  unit_size : Nat
  unit_bytes : Nat
  memory_failed : Bool
  last_ended : Bool
  have_data : Bool
  ch_enable : List (Int × Bool)
  envelope_en : Bool
  envelope_done : Bool
  instant : Bool
  envelope_levels : Nat → Nat → Envelope

/-- The constructor `DsoSnapshot::DsoSnapshot()`, which runs
`Snapshot(sizeof(uint16_t), 1, 1)` and then zeroes the envelope array. -/
def DsoSnapshot.mkNew : DsoSnapshot where
  data := none
  capacity := 0
  channel_num := 1
  sample_count := 0
  total_sample_count := 1
  ring_sample_count := 0
  unit_size := 2
  unit_bytes := 1
  memory_failed := false
  last_ended := true
  have_data := false
  ch_enable := []
  envelope_en := false
  envelope_done := false
  instant := false
  envelope_levels := fun _ _ => emptyEnvelope

/-- `Snapshot::free_data` (snapshot.cpp lines 54-63): frees the raw buffer
and zeroes capacity and sample count, but only when a buffer is held. -/
def DsoSnapshot.free_data (s : DsoSnapshot) : DsoSnapshot :=
  if s.data.isSome then
    { s with data := none, capacity := 0, sample_count := 0 }
  else s

/-- `Snapshot::get_sample_count` (the lock has no observable effect here). -/
def DsoSnapshot.get_sample_count (s : DsoSnapshot) : Nat := s.sample_count

/-- `Snapshot::empty`. -/
def DsoSnapshot.empty (s : DsoSnapshot) : Bool := s.get_sample_count == 0

/-- `Snapshot::ring_start` (snapshot.cpp lines 91-97). -/
def DsoSnapshot.ring_start (s : DsoSnapshot) : Nat :=
  if s.sample_count < s.total_sample_count then 0
  else s.ring_sample_count

/-- `Snapshot::ring_end` (snapshot.cpp lines 99-107). -/
def DsoSnapshot.ring_end (s : DsoSnapshot) : Nat :=
  if s.sample_count = 0 then 0
  else if s.ring_sample_count = 0 then s.total_sample_count - 1
  else s.ring_sample_count - 1

/-- `Snapshot::get_ring_start`. -/
def DsoSnapshot.get_ring_start (s : DsoSnapshot) : Nat := s.ring_start

/-- `Snapshot::get_ring_end`. -/
def DsoSnapshot.get_ring_end (s : DsoSnapshot) : Nat := s.ring_end

/-- `Snapshot::capture_ended`. -/
def DsoSnapshot.capture_ended (s : DsoSnapshot) : DsoSnapshot :=
  { s with last_ended := true }

/-- `DsoSnapshot::free_envelop` (dsosnapshot.cpp lines 58-67): frees every
level's array; the final `memset` zeroes the whole `_envelope_levels` array. -/
def DsoSnapshot.free_envelop (s : DsoSnapshot) : DsoSnapshot :=
  { s with envelope_levels := fun _ _ => emptyEnvelope }

/-- `DsoSnapshot::init_all` (dsosnapshot.cpp lines 75-90). -/
def DsoSnapshot.init_all (s : DsoSnapshot) : DsoSnapshot :=
  { s with
    sample_count := 0
    ring_sample_count := 0
    memory_failed := false
    last_ended := true
    envelope_done := false
    ch_enable := []
    envelope_levels := fun i level =>
      if i < s.channel_num ∧ level < ScaleStepCount then
        { s.envelope_levels i level with length := 0, data_length := 0 }
      else s.envelope_levels i level }

/-- `DsoSnapshot::init`. -/
def DsoSnapshot.init (s : DsoSnapshot) : DsoSnapshot := s.init_all

/-- `DsoSnapshot::clear` (dsosnapshot.cpp lines 92-99). -/
def DsoSnapshot.clear (s : DsoSnapshot) : DsoSnapshot :=
  { s.free_data.free_envelop.init_all with have_data := false }

/-- `memcpy(dat + off, src, len)` on the byte-store model. -/
def memwrite (dat : Nat → Nat) (off : Nat) (src : Nat → Nat) (len : Nat) :
    Nat → Nat :=
  fun j => if off ≤ j ∧ j < off + len then src (j - off) else dat j

/-- `DsoSnapshot::append_data` (dsosnapshot.cpp lines 175-187).  All
`uint64_t` computations carry an explicit `% U64`. -/
def DsoSnapshot.append_data (s : DsoSnapshot) (data : Nat → Nat)
    (samples : Nat) (instant : Bool) : DsoSnapshot :=
  if instant then
    let samples' :=
      if (s.sample_count + samples) % U64 > s.total_sample_count then
        (s.total_sample_count + U64 - s.sample_count) % U64
      else samples
    { s with
      data := s.data.map (fun d =>
        memwrite d ((s.sample_count * s.channel_num) % U64) data
          ((samples' * s.channel_num) % U64))
      sample_count := (s.sample_count + samples') % U64 }
  else
    { s with
      data := s.data.map (fun d =>
        memwrite d 0 data ((samples * s.channel_num) % U64))
      sample_count := samples }

/-- `(e.length + EnvelopeDataUnit - 1) / EnvelopeDataUnit * EnvelopeDataUnit`:
the rounding-up used in `reallocate_envelope` and `first_payload`. -/
def envRoundUp (n : Nat) : Nat :=
  (n + EnvelopeDataUnit - 1) / EnvelopeDataUnit * EnvelopeDataUnit

/-- `DsoSnapshot::reallocate_envelope` (dsosnapshot.cpp lines 244-254).
Only the tracked capacity `data_length` is updated; the `realloc` of the
backing array is commented out in the source, so `samples` is untouched. -/
def reallocate_envelope (e : Envelope) : Envelope :=
  let new_data_length := envRoundUp e.length
  if new_data_length > e.data_length then
    { e with data_length := new_data_length }
  else e

/-- Point update of the envelope-level table. -/
def setLvl (lvls : Nat → Nat → Envelope) (i l : Nat) (e : Envelope) :
    Nat → Nat → Envelope :=
  fun a b => if a = i ∧ b = l then e else lvls a b

/-- Writes the entries `[lo, hi)` of a level's backing array (the
`*dest_ptr++ = sub_sample` loops); a NULL array stays NULL. -/
def writeEntries (samples : Option (Nat → EnvelopeSample)) (lo hi : Nat)
    (f : Nat → EnvelopeSample) : Option (Nat → EnvelopeSample) :=
  samples.map (fun old k => if lo ≤ k ∧ k < hi then f k else old k)

/-- Level-0 entry `k` of channel `i`: the byte-wise min and max over the
`EnvelopeScaleFactor` raw samples of that channel starting at raw sample
`k * EnvelopeScaleFactor` (the first inner loop of
`append_payload_to_envelope_levels`; the first byte seeds the fold and is
scanned again by the `while`, exactly as in the source). -/
def envEntry0 (d : Nat → Nat) (channel_num i k : Nat) : EnvelopeSample :=
  let base := k * EnvelopeScaleFactor * channel_num + i
  (List.range EnvelopeScaleFactor).foldl
    (fun acc t =>
      { min := Nat.min acc.min (d (base + t * channel_num))
        max := Nat.max acc.max (d (base + t * channel_num)) })
    { min := d base, max := d base }

/-- Higher-level entry `k`: folds `EnvelopeScaleFactor` consecutive entries
of the level below, seeded with the first one (the second inner loop). -/
def envEntryL (src : Nat → EnvelopeSample) (k : Nat) : EnvelopeSample :=
  (List.range (EnvelopeScaleFactor - 1)).foldl
    (fun acc j =>
      { min := Nat.min acc.min (src (k * EnvelopeScaleFactor + 1 + j)).min
        max := Nat.max acc.max (src (k * EnvelopeScaleFactor + 1 + j)).max })
    (src (k * EnvelopeScaleFactor))

/-- The `for (level = 1; level < ScaleStepCount; level++)` loop of
`append_payload_to_envelope_levels` for channel `i` (lines 305-347),
recursing on the remaining level count.  The loop `break`s at the first
level whose new length is zero, after storing that zero length. -/
def buildHigher (header : Bool) (i : Nat) :
    (Nat → Nat → Envelope) → Nat → Nat → Nat → Nat → Envelope
  | lvls, _, 0 => lvls
  | lvls, level, fuel + 1 =>
    let el := lvls i (level - 1)
    let e := lvls i level
    let prev_length := if header then 0 else e.length
    let e := { e with length := el.length / EnvelopeScaleFactor }
    if e.length = 0 then setLvl lvls i level e
    else
      let prev_length := if e.length = prev_length then 0 else prev_length
      let e := reallocate_envelope e
      let src := el.samples.getD (fun _ => { min := 0, max := 0 })
      let e := { e with
        samples := writeEntries e.samples prev_length e.length (envEntryL src) }
      buildHigher header i (setLvl lvls i level e) (level + 1) fuel

/-- The per-channel body of `append_payload_to_envelope_levels`
(lines 258-302 plus the higher-level loop).  Returns the updated level table
and whether the `return` at `e0.length == 0` (line 270) fired, which aborts
the whole member function. -/
def buildChannel (dat : Option (Nat → Nat)) (channel_num sample_count : Nat)
    (header : Bool) (lvls : Nat → Nat → Envelope) (i : Nat) :
    (Nat → Nat → Envelope) × Bool :=
  let e0 := lvls i 0
  let prev_length := if header then 0 else e0.length
  let e0 := { e0 with length := sample_count / EnvelopeScaleFactor }
  if e0.length = 0 then (setLvl lvls i 0 e0, true)
  else
    let prev_length := if e0.length = prev_length then 0 else prev_length
    let e0 := reallocate_envelope e0
    let d := dat.getD (fun _ => 0)
    let e0 := { e0 with
      samples := writeEntries e0.samples prev_length e0.length
        (envEntry0 d channel_num i) }
    (buildHigher header i (setLvl lvls i 0 e0) 1 (ScaleStepCount - 1), false)

/-- The `for (i = 0; i < _channel_num; i++)` loop of
`append_payload_to_envelope_levels`, recursing on the remaining channel
count; the second component records the early `return`. -/
def buildChannels (dat : Option (Nat → Nat)) (channel_num sample_count : Nat)
    (header : Bool) :
    (Nat → Nat → Envelope) → Nat → Nat → (Nat → Nat → Envelope) × Bool
  | lvls, _, 0 => (lvls, false)
  | lvls, i, fuel + 1 =>
    let r := buildChannel dat channel_num sample_count header lvls i
    if r.2 then (r.1, true)
    else buildChannels dat channel_num sample_count header r.1 (i + 1) fuel

/-- `DsoSnapshot::append_payload_to_envelope_levels` (lines 256-350): the
loop only reads `_data`, `_channel_num`, `_sample_count` and reads/writes
`_envelope_levels`; `_envelope_done = true` at line 349 is skipped when the
early `return` fired. -/
def DsoSnapshot.append_payload_to_envelope_levels (s : DsoSnapshot)
    (header : Bool) : DsoSnapshot :=
  let r := buildChannels s.data s.channel_num s.sample_count header
    s.envelope_levels 0 s.channel_num
  if r.2 then { s with envelope_levels := r.1 }
  else { s with envelope_levels := r.1, envelope_done := true }

/-- `DsoSnapshot::append_payload` (dsosnapshot.cpp lines 160-173). -/
def DsoSnapshot.append_payload (s : DsoSnapshot) (dso : SrDatafeedDso) :
    DsoSnapshot :=
  if s.channel_num > 0 ∧ dso.num_samples ≠ 0 then
    let s := s.append_data dso.data dso.num_samples s.instant
    let s := if s.envelope_en then
        s.append_payload_to_envelope_levels dso.samplerate_tog
      else s
    { s with have_data := true }
  else s

/-- `DsoSnapshot::enable_envelope` (dsosnapshot.cpp lines 189-195). -/
def DsoSnapshot.enable_envelope (s : DsoSnapshot) (enable : Bool) :
    DsoSnapshot :=
  let s := if !s.envelope_done && enable then
      s.append_payload_to_envelope_levels true
    else s
  { s with envelope_en := enable }

/-- `(iter.second)` count of the enabled-channel map passed to
`first_payload`. -/
def countEnabled (m : List (Int × Bool)) : Nat := (m.filter (·.2)).length

/-- The envelope-skeleton allocation of `first_payload` for one channel
(lines 129-139): each level's entry count is rounded up to
`EnvelopeDataUnit` and divided by `EnvelopeScaleFactor` for the next level;
`ok_at level` is the outcome of that level's `malloc`.  Stops at the first
failed allocation. -/
def allocLevels (ok_at : Nat → Bool) :
    Nat → Nat → Nat → (Nat → Envelope) → ((Nat → Envelope) × Bool)
  | _, _, 0, levels => (levels, true)
  | envelop_count, level, fuel + 1, levels =>
    let c := envRoundUp envelop_count
    if ok_at level then
      let levels := fun b =>
        if b = level then
          { levels level with samples := some (fun _ => { min := 0, max := 0 }) }
        else levels b
      allocLevels ok_at (c / EnvelopeScaleFactor) (level + 1) fuel levels
    else (levels, false)

/-- The `for (i = 0; i < _channel_num; i++)` allocation loop of
`first_payload` (lines 128-142); `oracle` decides every `malloc`:
index 0 is the raw buffer, index `1 + i * ScaleStepCount + level` the
envelope array of channel `i`, level `level`. -/
def allocChannels (oracle : Nat → Bool) (total_sample_count : Nat) :
    (Nat → Nat → Envelope) → Nat → Nat → ((Nat → Nat → Envelope) × Bool)
  | lvls, _, 0 => (lvls, true)
  | lvls, i, fuel + 1 =>
    let r := allocLevels (fun level => oracle (1 + i * ScaleStepCount + level))
      (total_sample_count / EnvelopeScaleFactor) 0 ScaleStepCount (lvls i)
    let lvls := fun a b => if a = i then r.1 b else lvls a b
    if r.2 then allocChannels oracle total_sample_count lvls (i + 1) fuel
    else (lvls, false)

/-- `DsoSnapshot::first_payload` (dsosnapshot.cpp lines 101-158).  `oracle`
decides the outcome of each `malloc` of the setup pass.  Note that the
source sets `isOk = true` in the `else` branch taken when the raw-buffer
`malloc` returns NULL (line 144); the translation reproduces that branch
verbatim.  The `assert(channel_num != 0)` is a caller contract and is not
modelled as a state change. -/
def DsoSnapshot.first_payload (s : DsoSnapshot) (dso : SrDatafeedDso)
    (total_sample_count : Nat) (ch_enable : List (Int × Bool))
    (instant : Bool) (oracle : Nat → Bool) : DsoSnapshot :=
  let channel_num := countEnabled ch_enable
  let re_alloc := total_sample_count ≠ s.total_sample_count ∨
    channel_num ≠ s.channel_num
  let s := { s with
    total_sample_count := total_sample_count
    channel_num := channel_num
    instant := instant
    ch_enable := ch_enable }
  let size := (total_sample_count * channel_num + 8) % U64
  let r :=
    if re_alloc ∨ size ≠ s.capacity then
      let s := s.free_data
      if oracle 0 then
        let s := { s with data := some (fun _ => 0) }
        let s := s.free_envelop
        let a := allocChannels oracle total_sample_count s.envelope_levels 0
          channel_num
        ({ s with envelope_levels := a.1 }, a.2)
      else
        ({ s with data := none }, true)
    else (s, true)
  if r.2 then
    let s := { r.1 with capacity := size, memory_failed := false }
    let s := s.append_payload dso
    { s with last_ended := false }
  else
    let s := r.1.free_data.free_envelop
    { s with memory_failed := true }

/-- The section handed back by `get_envelope_section`; `samples` is the
pointer `_envelope_levels[idx][lvl].samples + start`. -/
structure EnvelopeSection where
  start : Nat
  scale : Nat
  length : Nat
  samples : Option (Nat → EnvelopeSample)

/-- `DsoSnapshot::get_envelope_section` (dsosnapshot.cpp lines 213-242),
updating a caller-supplied section `sec`.  The source selects
`min_level = max(floorf(logf(min_length) / LogEnvelopeScaleFactor) - 1, 0)`
with single-precision floats over a `float min_length`; the embedding takes
a natural `min_length` and uses the exact integer logarithm, which agrees
with the float formula on the in-range arguments (truncated `Nat`
subtraction supplies the `max` with 0). -/
def DsoSnapshot.get_envelope_section (s : DsoSnapshot) (sec : EnvelopeSection)
    (start end_ : Nat) (min_length : Nat) (probe_index : Nat) :
    EnvelopeSection :=
  if !s.envelope_done then { sec with length := 0 }
  else
    let min_level := Nat.log EnvelopeScaleFactor min_length - 1
    let scale_power := (min_level + 1) * EnvelopeScalePower
    let start := start >>> scale_power
    let end_ := end_ >>> scale_power
    let e := s.envelope_levels probe_index min_level
    { start := start <<< scale_power
      scale := 1 <<< scale_power
      length := if e.length = 0 then 0 else end_ - start
      samples := e.samples.map (fun f k => f (start + k)) }

/-- Reads byte `j` of the raw buffer (`(uint8_t*)_data`); dereferencing the
NULL pointer is undefined in C and yields the default byte here. -/
def DsoSnapshot.byteAt (s : DsoSnapshot) (j : Nat) : Nat :=
  (s.data.getD (fun _ => 0)) j

/-- The accumulator computed by `DsoSnapshot::cal_vrms`
(dsosnapshot.cpp lines 352-381), with the C `double` arithmetic modelled
exactly over `ℚ`.  The outer loop walks `VrmsScaleFactor`-sized chunks; the
inner `while` adds each squared deviation into the same running `vrms`
variable (which is *not* reset per chunk), and each chunk ends with
`vrms = vrms_pre + vrms / get_sample_count()`. -/
def DsoSnapshot.cal_vrms_acc (s : DsoSnapshot) (zero_off : ℚ) (index : Nat) :
    ℚ :=
  let idx0 := index % s.channel_num
  let chunk := VrmsScaleFactor * s.channel_num
  let chunks := (s.get_sample_count * s.channel_num - idx0 + (chunk - 1)) / chunk
  (List.range chunks).foldl
    (fun vrms m =>
      let vrms_pre := vrms
      let vrms := (List.range VrmsScaleFactor).foldl
        (fun v t =>
          let tmp := zero_off - (s.byteAt (idx0 + m * chunk + t * s.channel_num) : ℚ)
          v + tmp * tmp)
        vrms
      vrms_pre + vrms / (s.get_sample_count : ℚ)) 0

/-- `DsoSnapshot::cal_vrms` returns `pow(vrms, 0.5)` of the accumulator. -/
noncomputable def DsoSnapshot.cal_vrms (s : DsoSnapshot) (zero_off : ℚ)
    (index : Nat) : ℝ :=
  Real.sqrt ((s.cal_vrms_acc zero_off index : ℚ) : ℝ)

/-- `DsoSnapshot::get_unit_bytes`. -/
def DsoSnapshot.get_unit_bytes (s : DsoSnapshot) : Nat := s.unit_bytes

/-- `DsoSnapshot::get_channel_num`. -/
def DsoSnapshot.get_channel_num (s : DsoSnapshot) : Nat := s.channel_num

/-- `DsoSnapshot::get_block_num` (dsosnapshot.cpp lines 427-432). -/
def DsoSnapshot.get_block_num (s : DsoSnapshot) : Nat :=
  let size := (s.sample_count * s.get_unit_bytes * s.get_channel_num) % U64
  (size >>> LeafBlockPower) + (if size &&& LeafMask ≠ 0 then 1 else 0)

/-- `DsoSnapshot::get_block_size` (dsosnapshot.cpp lines 434-447). -/
def DsoSnapshot.get_block_size (s : DsoSnapshot) (block_index : Nat) : Nat :=
  if block_index < s.get_block_num - 1 then LeafBlockSamples
  else
    let size := (s.sample_count * s.get_unit_bytes * s.get_channel_num) % U64
    if size % LeafBlockSamples = 0 then LeafBlockSamples
    else size % LeafBlockSamples

/-- An allocation oracle under which every `malloc` succeeds. -/
def allocAllOk : Nat → Bool := fun _ => true

/-- The states reachable from a fresh `DsoSnapshot` through its public
mutating interface.  `first_payload` carries the source's
`assert(channel_num != 0)` as a side condition. -/
inductive Reachable : DsoSnapshot → Prop
  | mk : Reachable DsoSnapshot.mkNew
  | init {s : DsoSnapshot} : Reachable s → Reachable s.init
  | clear {s : DsoSnapshot} : Reachable s → Reachable s.clear
  | first_payload {s : DsoSnapshot} (dso : SrDatafeedDso)
      (total_sample_count : Nat) (ch_enable : List (Int × Bool))
      (instant : Bool) (oracle : Nat → Bool) : Reachable s →
      countEnabled ch_enable ≠ 0 →
      Reachable (s.first_payload dso total_sample_count ch_enable instant oracle)
  | append_payload {s : DsoSnapshot} (dso : SrDatafeedDso) : Reachable s →
      Reachable (s.append_payload dso)
  | enable_envelope {s : DsoSnapshot} (enable : Bool) : Reachable s →
      Reachable (s.enable_envelope enable)
  | capture_ended {s : DsoSnapshot} : Reachable s → Reachable s.capture_ended

/-! ## Shared helper lemmas -/

/-- Truncation `_total_sample_count - _sample_count` on `uint64_t`, for
states with `sample_count ≤ total_sample_count < 2 ^ 64`. -/
lemma u64_trunc (sc T : Nat) (h1 : sc ≤ T) (h2 : T < U64) :
    (T + U64 - sc) % U64 = T - sc := by
  have h3 : T + U64 - sc = U64 + (T - sc) := by omega
  rw [h3, Nat.add_mod_left]
  exact Nat.mod_eq_of_lt (by omega)

/-- A fold over `List.range` that adds a constant each step. -/
lemma foldl_add_const (f : ℚ → Nat → ℚ) (c : ℚ) (h : ∀ v t, f v t = v + c) :
    ∀ (m : Nat) (init : ℚ),
      List.foldl f init (List.range m) = init + m * c := by
  intro m
  induction m with
  | zero => intro init; simp
  | succ n ih =>
    intro init
    rw [List.range_succ, List.foldl_append]
    simp [ih, h]
    ring

/-- `reallocate_envelope` does not change the valid length. -/
lemma reallocate_length (e : Envelope) :
    (reallocate_envelope e).length = e.length := by
  unfold reallocate_envelope
  by_cases h : envRoundUp e.length > e.data_length <;> simp [h]

/-! ## C1 -/

/-- The snapshot produced by a setup pass whose raw-buffer `malloc` fails
(the oracle refuses every allocation; the raw buffer is asked first). -/
def rawAllocFailState : DsoSnapshot :=
  DsoSnapshot.mkNew.first_payload
    { data := fun _ => 0, num_samples := 4, samplerate_tog := false }
    10 [(0, true)] true (fun _ => false)

/-- C1: the claim states that any failed allocation in `first_payload`
rolls the pass back and sets `_memory_failed`.  The code contradicts it for
the raw-buffer `malloc`: the `else` branch at line 144 sets `isOk = true`
when `malloc` returns NULL, so the function proceeds, leaves
`_memory_failed == false`, keeps no raw buffer, and even appends the first
chunk through the NULL `_data` pointer (updating `_sample_count` to 4, so
the snapshot does not report zero samples either). -/
theorem firstPayload_raw_alloc_failure_not_rolled_back :
    rawAllocFailState.memory_failed = false ∧
    rawAllocFailState.data.isNone = true ∧
    rawAllocFailState.sample_count = 4 := by
  exact ⟨rfl, rfl, rfl⟩

/-! ## C2 -/

/-- A replace-on-arrival snapshot with capacity 10 filled by a 6-sample
chunk, then hit with a 15-sample chunk. -/
def replaceOverflowState : DsoSnapshot :=
  (DsoSnapshot.mkNew.first_payload
      { data := fun _ => 0, num_samples := 6, samplerate_tog := false }
      10 [(0, true)] false allocAllOk).append_payload
    { data := fun _ => 1, num_samples := 15, samplerate_tog := false }

/-- C2 counterexample: in replace-on-arrival mode (`instant = false`)
`append_data` sets `_sample_count` to the chunk length without clamping, so
a reachable state violates `_sample_count ≤ _total_sample_count`: capacity
10, second chunk of 15 samples, final `_sample_count = 15 > 10`. -/
theorem append_replace_overflow_breaks_bound :
    ¬(replaceOverflowState.sample_count ≤
      replaceOverflowState.total_sample_count) := by decide

/-- C2 (amended): `0 ≤ _sample_count` always holds (`Nat`); the upper bound
`_sample_count ≤ _total_sample_count` is preserved by every append in
append-growing mode (`instant = true`, any chunk length), and in
replace-on-arrival mode exactly when the chunk length does not exceed
`_total_sample_count`. -/
theorem append_data_sample_count_bound (s : DsoSnapshot) (d : Nat → Nat)
    (samples : Nat)
    (h1 : s.sample_count ≤ s.total_sample_count)
    (h2 : s.total_sample_count < U64) :
    (s.append_data d samples true).sample_count ≤ s.total_sample_count ∧
    (samples ≤ s.total_sample_count →
      (s.append_data d samples false).sample_count ≤ s.total_sample_count) := by
  constructor
  · have hins : (s.append_data d samples true).sample_count =
        (s.sample_count +
          (if (s.sample_count + samples) % U64 > s.total_sample_count then
            (s.total_sample_count + U64 - s.sample_count) % U64
          else samples)) % U64 := rfl
    rw [hins]
    by_cases hg : (s.sample_count + samples) % U64 > s.total_sample_count
    · rw [if_pos hg, u64_trunc _ _ h1 h2]
      have h4 : s.sample_count + (s.total_sample_count - s.sample_count) =
          s.total_sample_count := by omega
      rw [h4, Nat.mod_eq_of_lt h2]
    · rw [if_neg hg]
      omega
  · intro hle
    exact hle

/-- C2 witness: the amended bound at capacity 10, count 3, chunk 7. -/
theorem append_data_sample_count_bound_witness :
    ({ DsoSnapshot.mkNew with
        sample_count := 3, total_sample_count := 10 }.append_data
      (fun _ => 0) 7 true).sample_count ≤ 10 := by
  exact (append_data_sample_count_bound
    { DsoSnapshot.mkNew with sample_count := 3, total_sample_count := 10 }
    (fun _ => 0) 7 (by decide) (by decide)).1

/-! ## C4 -/

/-- A reachable-shaped snapshot holding 512 samples of byte value 255 on a
single channel. -/
def allMaxState : DsoSnapshot :=
  { DsoSnapshot.mkNew with
    data := some (fun _ => 255)
    sample_count := 512
    total_sample_count := 512
    channel_num := 1 }

/-- C4: the claim (and the spec) state the running accumulation
`acc_k = acc_{k-1} + chunkSumOfSquares / n`, from which a buffer filled
with 255 and `zero_off = 0` must give `rms == 255`.  The source never
resets the chunk sum: the inner `while` adds into the same `vrms` that
already holds the running accumulator, so each chunk computes
`acc_k = acc_{k-1} + (acc_{k-1} + chunkSum) / n`.  The function's own
comment says it computes the "root-meam-squart value", so the code is the
slip: at 512 samples of 255 it returns
`sqrt(65025 + 65025/1024) ≈ 255.078 > 255` instead of 255. -/
theorem cal_vrms_constant_255_not_255 :
    (255 : ℝ) < allMaxState.cal_vrms 0 0 := by
  have hacc : allMaxState.cal_vrms_acc 0 0 = 66650625 / 1024 := by
    have h1 : allMaxState.cal_vrms_acc 0 0 =
        List.foldl (fun vrms m =>
          vrms + (List.foldl
            (fun v t => v + ((0 : ℚ) - 255) * ((0 : ℚ) - 255)) vrms
            (List.range 256)) / (512 : ℚ)) 0 (List.range 2) := rfl
    rw [h1]
    have h65 : ∀ (v : ℚ) (t : Nat),
        (fun (v : ℚ) (t : Nat) => v + ((0 : ℚ) - 255) * ((0 : ℚ) - 255)) v t
          = v + 65025 := by intro v t; norm_num
    simp only [foldl_add_const _ _ h65]
    rw [show List.range 2 = [0, 1] from rfl]
    simp only [List.foldl_cons, List.foldl_nil]
    norm_num
  unfold DsoSnapshot.cal_vrms
  rw [hacc, Real.lt_sqrt (by norm_num)]
  push_cast
  norm_num

/-! ## C5 -/

/-- The `return` at `e0.length == 0` fires exactly when
`_sample_count / EnvelopeScaleFactor` is zero. -/
lemma buildChannel_early_iff (dat : Option (Nat → Nat)) (ch sc : Nat)
    (header : Bool) (lvls : Nat → Nat → Envelope) (i : Nat) :
    (buildChannel dat ch sc header lvls i).2 = true ↔
      sc / EnvelopeScaleFactor = 0 := by
  by_cases h : sc / EnvelopeScaleFactor = 0 <;> simp [buildChannel, h]

/-- When at least `EnvelopeScaleFactor` samples are stored, no channel
triggers the early `return`. -/
lemma buildChannels_not_early (dat : Option (Nat → Nat)) (ch sc : Nat)
    (header : Bool) (h : sc / EnvelopeScaleFactor ≠ 0) :
    ∀ (fuel i : Nat) (lvls : Nat → Nat → Envelope),
      (buildChannels dat ch sc header lvls i fuel).2 = false := by
  intro fuel
  induction fuel with
  | zero => intro i lvls; rfl
  | succ n ih =>
    intro i lvls
    have he : (buildChannel dat ch sc header lvls i).2 = false := by
      by_cases hb : (buildChannel dat ch sc header lvls i).2 = true
      · exact absurd ((buildChannel_early_iff dat ch sc header lvls i).1 hb) h
      · simpa using hb
    simp [buildChannels, he, ih]

/-- A below-scale snapshot: 100 samples stored (fewer than 256), envelope
generation then enabled retroactively, which runs a full header build. -/
def belowScaleState : DsoSnapshot :=
  (DsoSnapshot.mkNew.first_payload
      { data := fun _ => 0, num_samples := 100, samplerate_tog := false }
      1000 [(0, true)] true allocAllOk).enable_envelope true

/-- C5 counterexample: with 100 stored samples (level-0 length zero) the
build pass triggered by `enable_envelope(true)` hits the
`if (e0.length == 0) return;` at line 270 of dsosnapshot.cpp and returns
before the `_envelope_done = true` at line 349, so the completion flag
stays `false` — the claim says it would be `true` for every sample count. -/
theorem build_below_scale_leaves_envelope_done_false :
    belowScaleState.envelope_done = false := by decide

/-- C5 (amended): a run of the envelope build pass sets `_envelope_done`
provided at least `EnvelopeScaleFactor` (256) samples are stored, so that
no channel's level-0 length is zero; when the level-0 length is zero the
pass returns early and leaves the flag unchanged. -/
theorem build_sets_envelope_done_when_filled (s : DsoSnapshot) (header : Bool)
    (h : EnvelopeScaleFactor ≤ s.sample_count) :
    (s.append_payload_to_envelope_levels header).envelope_done = true := by
  have hnz : s.sample_count / EnvelopeScaleFactor ≠ 0 := by
    have h1 : 1 ≤ s.sample_count / EnvelopeScaleFactor :=
      (Nat.le_div_iff_mul_le (by norm_num [EnvelopeScaleFactor])).2
        (by simpa using h)
    omega
  have hne := buildChannels_not_early s.data s.channel_num s.sample_count
    header hnz s.channel_num 0 s.envelope_levels
  simp [DsoSnapshot.append_payload_to_envelope_levels, hne]

/-- C5 witness: the amended statement at a 300-sample single-channel
snapshot. -/
theorem build_sets_envelope_done_when_filled_witness :
    ({ DsoSnapshot.mkNew with
        sample_count := 300, total_sample_count := 300, channel_num := 1,
        data := some (fun _ => 0) }.append_payload_to_envelope_levels
      true).envelope_done = true := by
  exact build_sets_envelope_done_when_filled
    { DsoSnapshot.mkNew with
      sample_count := 300, total_sample_count := 300, channel_num := 1,
      data := some (fun _ => 0) } true (by decide)

/-! ## C7 -/

/-- An append-growing snapshot with capacity 10 holding 5 samples. -/
def fiveOfTenState : DsoSnapshot :=
  DsoSnapshot.mkNew.first_payload
    { data := fun _ => 0, num_samples := 5, samplerate_tog := false }
    10 [(0, true)] true allocAllOk

/-- C7 counterexample: the overflow guard
`_sample_count + samples > _total_sample_count` is computed in `uint64_t`
and wraps for a chunk of `2^64 - 3` samples: starting from 5 stored
samples (capacity 10), the sum wraps to 2, no truncation happens, and
`_sample_count` drops from 5 to 2 — so the append-growing path does not
increase `_sample_count` monotonically for every chunk length. -/
theorem append_instant_wrap_nonmonotonic :
    ((fiveOfTenState.append_payload
        { data := fun _ => 2, num_samples := 2 ^ 64 - 3,
          samplerate_tog := false }).sample_count
      < fiveOfTenState.sample_count) := by decide


/-- C7 (amended): in append-growing mode, for every chunk whose length does
not overflow the `uint64_t` guard (`_sample_count + samples < 2^64` and the
written byte count below `2^64`), `append_data` writes the chunk starting
at byte offset `_sample_count * _channel_num`, truncates it to the
remaining room (`_sample_count` becomes
`min (_sample_count + samples) _total_sample_count`), grows
`_sample_count` monotonically to at most `_total_sample_count`, and never
writes at or beyond byte offset `_total_sample_count * _channel_num`; in
particular with capacity 10, one channel and `_sample_count = 0`, a
15-sample chunk leaves `size() = 10` (witness below). -/
theorem append_data_instant_truncation (s : DsoSnapshot) (chunk : Nat → Nat)
    (samples : Nat)
    (h1 : s.sample_count ≤ s.total_sample_count)
    (h2 : s.total_sample_count < U64)
    (h3 : s.sample_count + samples < U64)
    (h4 : (s.sample_count + samples) * s.channel_num < U64) :
    (s.append_data chunk samples true).sample_count
      = min (s.sample_count + samples) s.total_sample_count ∧
    s.sample_count ≤ (s.append_data chunk samples true).sample_count ∧
    (s.append_data chunk samples true).sample_count ≤ s.total_sample_count ∧
    ∀ d0, s.data = some d0 → ∃ d1,
      (s.append_data chunk samples true).data = some d1 ∧
      (∀ j, j < s.sample_count * s.channel_num → d1 j = d0 j) ∧
      (∀ j, s.total_sample_count * s.channel_num ≤ j → d1 j = d0 j) ∧
      (∀ j, s.sample_count * s.channel_num ≤ j →
        j < min (s.sample_count + samples) s.total_sample_count
          * s.channel_num →
        d1 j = chunk (j - s.sample_count * s.channel_num)) := by
  have hmods : (s.sample_count + samples) % U64 = s.sample_count + samples :=
    Nat.mod_eq_of_lt h3
  have hoff : (s.sample_count * s.channel_num) % U64
      = s.sample_count * s.channel_num :=
    Nat.mod_eq_of_lt (lt_of_le_of_lt
      (Nat.mul_le_mul_right _ (Nat.le_add_right _ _)) h4)
  have hsub := Nat.sub_mul s.total_sample_count s.sample_count s.channel_num
  have hmul1 : s.sample_count * s.channel_num ≤
      s.total_sample_count * s.channel_num := Nat.mul_le_mul_right _ h1
  have hadd := Nat.add_mul s.sample_count samples s.channel_num
  by_cases hg : (s.sample_count + samples) % U64 > s.total_sample_count
  · have hgt : s.sample_count + samples > s.total_sample_count := by
      rwa [hmods] at hg
    have hsamp : (s.total_sample_count + U64 - s.sample_count) % U64
        = s.total_sample_count - s.sample_count := u64_trunc _ _ h1 h2
    have hsc : (s.append_data chunk samples true).sample_count
        = s.total_sample_count := by
      have h5 : (s.append_data chunk samples true).sample_count =
          (s.sample_count +
            (if (s.sample_count + samples) % U64 > s.total_sample_count then
              (s.total_sample_count + U64 - s.sample_count) % U64
            else samples)) % U64 := rfl
      rw [h5, if_pos hg, hsamp,
        show s.sample_count + (s.total_sample_count - s.sample_count)
          = s.total_sample_count by omega, Nat.mod_eq_of_lt h2]
    have hmin : min (s.sample_count + samples) s.total_sample_count
        = s.total_sample_count := by omega
    have hlen : (((s.total_sample_count + U64 - s.sample_count) % U64)
        * s.channel_num) % U64
        = (s.total_sample_count - s.sample_count) * s.channel_num := by
      rw [hsamp]
      exact Nat.mod_eq_of_lt (lt_of_le_of_lt
        (Nat.mul_le_mul_right _ (by omega)) h4)
    have heq : s.sample_count * s.channel_num
        + (s.total_sample_count - s.sample_count) * s.channel_num
        = s.total_sample_count * s.channel_num := by omega
    refine ⟨by rw [hsc, hmin], by rw [hsc]; exact h1, by rw [hsc], ?_⟩
    intro d0 hd0
    refine ⟨memwrite d0 (s.sample_count * s.channel_num) chunk
      ((s.total_sample_count - s.sample_count) * s.channel_num), ?_, ?_, ?_, ?_⟩
    · have h6 : (s.append_data chunk samples true).data =
          s.data.map (fun d =>
            memwrite d ((s.sample_count * s.channel_num) % U64) chunk
              (((if (s.sample_count + samples) % U64 > s.total_sample_count then
                  (s.total_sample_count + U64 - s.sample_count) % U64
                else samples) * s.channel_num) % U64)) := rfl
      rw [h6, hd0, Option.map_some', if_pos hg, hoff, hlen]
    · intro j hj
      unfold memwrite
      rw [if_neg (by omega)]
    · intro j hj
      unfold memwrite
      rw [if_neg (by omega)]
    · intro j hj1 hj2
      rw [hmin] at hj2
      unfold memwrite
      rw [if_pos (by constructor <;> omega)]
  · have hle : s.sample_count + samples ≤ s.total_sample_count := by
      rw [hmods] at hg; omega
    have hsc : (s.append_data chunk samples true).sample_count
        = s.sample_count + samples := by
      have h5 : (s.append_data chunk samples true).sample_count =
          (s.sample_count +
            (if (s.sample_count + samples) % U64 > s.total_sample_count then
              (s.total_sample_count + U64 - s.sample_count) % U64
            else samples)) % U64 := rfl
      rw [h5, if_neg hg, hmods]
    have hmin : min (s.sample_count + samples) s.total_sample_count
        = s.sample_count + samples := by omega
    have hlen : (samples * s.channel_num) % U64 = samples * s.channel_num :=
      Nat.mod_eq_of_lt (lt_of_le_of_lt
        (Nat.mul_le_mul_right _ (Nat.le_add_left _ _)) h4)
    have hmul2 : (s.sample_count + samples) * s.channel_num ≤
        s.total_sample_count * s.channel_num := Nat.mul_le_mul_right _ hle
    refine ⟨by rw [hsc, hmin], by rw [hsc]; omega, by rw [hsc]; exact hle, ?_⟩
    intro d0 hd0
    refine ⟨memwrite d0 (s.sample_count * s.channel_num) chunk
      (samples * s.channel_num), ?_, ?_, ?_, ?_⟩
    · have h6 : (s.append_data chunk samples true).data =
          s.data.map (fun d =>
            memwrite d ((s.sample_count * s.channel_num) % U64) chunk
              (((if (s.sample_count + samples) % U64 > s.total_sample_count then
                  (s.total_sample_count + U64 - s.sample_count) % U64
                else samples) * s.channel_num) % U64)) := rfl
      rw [h6, hd0, Option.map_some', if_neg hg, hoff, hlen]
    · intro j hj
      unfold memwrite
      rw [if_neg (by omega)]
    · intro j hj
      unfold memwrite
      rw [if_neg (by omega)]
    · intro j hj1 hj2
      rw [hmin] at hj2
      unfold memwrite
      rw [if_pos (by constructor <;> omega)]

/-- C7 witness: the amended statement at the claim's own concrete instance
(capacity 10, one channel, empty snapshot, 15-sample chunk): `size()`
becomes 10. -/
theorem append_data_instant_truncation_witness :
    ({ DsoSnapshot.mkNew with
        total_sample_count := 10, channel_num := 1,
        data := some (fun _ => 0) }.append_data
      (fun j => j + 1) 15 true).sample_count = 10 := by
  have h := (append_data_instant_truncation
    { DsoSnapshot.mkNew with
      total_sample_count := 10, channel_num := 1, data := some (fun _ => 0) }
    (fun j => j + 1) 15 (by decide) (by decide) (by decide) (by decide)).1
  simpa using h

/-! ## C6 -/

/-- The rounding-up always reaches the required length. -/
lemma envRoundUp_le (n : Nat) : n ≤ envRoundUp n := by
  unfold envRoundUp
  have h := Nat.div_add_mod (n + EnvelopeDataUnit - 1) EnvelopeDataUnit
  have h2 : (n + EnvelopeDataUnit - 1) % EnvelopeDataUnit < EnvelopeDataUnit :=
    Nat.mod_lt _ (by norm_num [EnvelopeDataUnit])
  simp only [EnvelopeDataUnit] at h h2 ⊢
  omega

/-- The rounding-up lands on a multiple of the allocation granularity. -/
lemma envRoundUp_mod (n : Nat) : envRoundUp n % EnvelopeDataUnit = 0 :=
  Nat.mul_mod_left _ _

/-- C6: whenever a level's required length exceeds its tracked allocated
capacity `data_length` (the spec's `allocatedLength`), `reallocate_envelope`
grows that capacity to the required length rounded up to the
`EnvelopeDataUnit` granularity, and it never shrinks it; the valid length
and the backing array are untouched (the `realloc` call is commented out in
the source, the array being pre-sized by `first_payload`). -/
theorem reallocate_envelope_grows_rounded_never_shrinks (e : Envelope) :
    (envRoundUp e.length > e.data_length →
      (reallocate_envelope e).data_length = envRoundUp e.length ∧
      (reallocate_envelope e).data_length % EnvelopeDataUnit = 0) ∧
    e.data_length ≤ (reallocate_envelope e).data_length ∧
    e.length ≤ (reallocate_envelope e).data_length ∧
    (reallocate_envelope e).length = e.length ∧
    (reallocate_envelope e).samples = e.samples := by
  simp only [reallocate_envelope]
  by_cases h : envRoundUp e.length > e.data_length
  · rw [if_pos h]
    exact ⟨fun _ => ⟨rfl, envRoundUp_mod _⟩, Nat.le_of_lt h,
      envRoundUp_le _, rfl, rfl⟩
  · rw [if_neg h]
    exact ⟨fun hc => absurd hc h, Nat.le_refl _,
      Nat.le_trans (envRoundUp_le _) (by omega), rfl, rfl⟩

/-- C6 witness: a level of length 5 with no capacity is grown to one
4096-entry unit. -/
theorem reallocate_envelope_grows_witness :
    (reallocate_envelope { length := 5, data_length := 0, samples := none
      }).data_length = envRoundUp 5 :=
  ((reallocate_envelope_grows_rounded_never_shrinks
    { length := 5, data_length := 0, samples := none }).1 (by decide)).1

/-! ## C8 -/

/-- Masking with `LeafMask` is reduction modulo the leaf block size. -/
lemma land_mask_eq_mod (n : Nat) : n &&& LeafMask = n % LeafBlockSamples := by
  have hm : LeafMask = 2 ^ LeafBlockPower - 1 := rfl
  have hb : LeafBlockSamples = 2 ^ LeafBlockPower := rfl
  rw [hm, hb]
  apply Nat.eq_of_testBit_eq
  intro i
  rw [Nat.testBit_land, Nat.testBit_two_pow_sub_one, Nat.testBit_mod_two_pow]
  exact Bool.and_comm _ _

/-- C8: for a stored byte size of `k * LeafBlockSize + r` bytes with
`0 < r < LeafBlockSize`, `get_block_num` is `k + 1`, the final block
`get_block_size k` is `r` and every earlier block is full; when the byte
size divides evenly the final block is a full block. -/
theorem block_decomposition_spec (s : DsoSnapshot) (k r : Nat)
    (hsize : s.sample_count * s.get_unit_bytes * s.get_channel_num
      = k * LeafBlockSamples + r)
    (hU : k * LeafBlockSamples + r < U64)
    (hr : r < LeafBlockSamples) :
    (0 < r → s.get_block_num = k + 1 ∧ s.get_block_size k = r ∧
      ∀ i, i < k → s.get_block_size i = LeafBlockSamples) ∧
    (r = 0 → 0 < k → s.get_block_num = k ∧
      s.get_block_size (k - 1) = LeafBlockSamples) := by
  have hmod : (s.sample_count * s.get_unit_bytes * s.get_channel_num) % U64
      = k * LeafBlockSamples + r := by
    rw [hsize]; exact Nat.mod_eq_of_lt hU
  have hdiv : (k * LeafBlockSamples + r) >>> LeafBlockPower = k := by
    rw [Nat.shiftRight_eq_div_pow,
      show (2 : Nat) ^ LeafBlockPower = LeafBlockSamples from rfl,
      Nat.mul_comm k, Nat.mul_add_div (by norm_num [LeafBlockSamples]),
      Nat.div_eq_of_lt hr, Nat.add_zero]
  have hmod2 : (k * LeafBlockSamples + r) % LeafBlockSamples = r := by
    rw [Nat.mul_comm k, Nat.mul_add_mod, Nat.mod_eq_of_lt hr]
  have hand : (k * LeafBlockSamples + r) &&& LeafMask = r := by
    rw [land_mask_eq_mod, hmod2]
  have hnum : s.get_block_num = k + (if r ≠ 0 then 1 else 0) := by
    simp only [DsoSnapshot.get_block_num, hmod, hdiv, hand]
  constructor
  · intro hrpos
    have hnum1 : s.get_block_num = k + 1 := by
      rw [hnum, if_pos (by omega)]
    refine ⟨hnum1, ?_, ?_⟩
    · simp only [DsoSnapshot.get_block_size, hnum1, hmod, hmod2]
      rw [if_neg (by omega), if_neg (by omega)]
    · intro i hik
      simp only [DsoSnapshot.get_block_size, hnum1]
      rw [if_pos (by omega)]
  · intro hr0 hk
    have hnum0 : s.get_block_num = k := by
      rw [hnum, if_neg (by omega)]
      exact Nat.add_zero k
    refine ⟨hnum0, ?_⟩
    simp only [DsoSnapshot.get_block_size, hnum0, hmod, hmod2]
    rw [if_neg (by omega), if_pos (by omega)]

/-- A one-channel snapshot holding `2^20 + 5` stored bytes. -/
def blockDemoState : DsoSnapshot :=
  { DsoSnapshot.mkNew with sample_count := 2 ^ 20 + 5, channel_num := 1 }

/-- C8 witness: `2^20 + 5` bytes decompose into one full block and a
5-byte final block. -/
theorem block_decomposition_spec_witness :
    blockDemoState.get_block_num = 2 ∧
    blockDemoState.get_block_size 1 = 5 ∧
    blockDemoState.get_block_size 0 = LeafBlockSamples := by
  have h := (block_decomposition_spec blockDemoState 1 5
    (by decide) (by decide) (by decide)).1 (by decide)
  exact ⟨by rw [h.1], h.2.1, h.2.2 0 (by decide)⟩

/-! ## C10 -/

/-- C10: `enable_envelope false` changes only the `_envelope_en` flag (the
build is guarded by `enable` being true, so pyramid, raw buffer, counters
and `_envelope_done` are untouched), and once the pyramid has completed a
subsequent `get_envelope_section` on the disabled snapshot still returns a
non-empty section — the section code checks only `_envelope_done` and the
retained level lengths, never `_envelope_en`. -/
theorem enable_envelope_false_frame (s : DsoSnapshot) :
    s.enable_envelope false = { s with envelope_en := false } ∧
    ∀ (sec : EnvelopeSection) (start end_ min_length probe_index : Nat),
      s.envelope_done = true →
      (s.envelope_levels probe_index
        (Nat.log EnvelopeScaleFactor min_length - 1)).length ≠ 0 →
      start >>> ((Nat.log EnvelopeScaleFactor min_length - 1 + 1)
          * EnvelopeScalePower)
        < end_ >>> ((Nat.log EnvelopeScaleFactor min_length - 1 + 1)
          * EnvelopeScalePower) →
      ((s.enable_envelope false).get_envelope_section sec start end_
        min_length probe_index).length ≠ 0 := by
  have hframe : s.enable_envelope false = { s with envelope_en := false } := by
    simp [DsoSnapshot.enable_envelope]
  refine ⟨hframe, ?_⟩
  intro sec start end_ min_length probe_index hdone hlen hlt
  rw [hframe]
  simp only [DsoSnapshot.get_envelope_section]
  rw [show ({ s with envelope_en := false } : DsoSnapshot).envelope_done
    = true from hdone]
  simp only [Bool.not_true, Bool.false_eq_true, if_false]
  rw [if_neg]
  · omega
  · exact hlen

/-- A completed-pyramid snapshot whose level lengths are all 7. -/
def sectionDemoState : DsoSnapshot :=
  { DsoSnapshot.mkNew with
    envelope_done := true
    envelope_levels := fun _ _ =>
      { length := 7, data_length := 4096,
        samples := some (fun _ => { min := 0, max := 0 }) } }

/-- C10 witness: after `enable_envelope false`, a section query over
`[0, 65536)` at `min_length = 1` still returns a non-empty section. -/
theorem enable_envelope_false_frame_witness :
    ((sectionDemoState.enable_envelope false).get_envelope_section
      { start := 0, scale := 0, length := 0, samples := none }
      0 65536 1 0).length ≠ 0 := by
  exact (enable_envelope_false_frame sectionDemoState).2
    { start := 0, scale := 0, length := 0, samples := none }
    0 65536 1 0 rfl (by simp [sectionDemoState])
    (by simp only [Nat.log_one_right]; decide)

/-! ## C9 -/

/-- `free_data` never touches the ring cursor. -/
lemma free_data_ring (s : DsoSnapshot) :
    s.free_data.ring_sample_count = s.ring_sample_count := by
  unfold DsoSnapshot.free_data
  split <;> rfl

/-- `free_envelop` never touches the ring cursor. -/
lemma free_envelop_ring (s : DsoSnapshot) :
    s.free_envelop.ring_sample_count = s.ring_sample_count := rfl

/-- `append_data` never touches the ring cursor (in either mode). -/
lemma append_data_ring (s : DsoSnapshot) (d : Nat → Nat) (n : Nat) (b : Bool) :
    (s.append_data d n b).ring_sample_count = s.ring_sample_count := by
  cases b <;> rfl

/-- The envelope build never touches the ring cursor. -/
lemma build_ring (s : DsoSnapshot) (header : Bool) :
    (s.append_payload_to_envelope_levels header).ring_sample_count
      = s.ring_sample_count := by
  by_cases h : (buildChannels s.data s.channel_num s.sample_count header
      s.envelope_levels 0 s.channel_num).2 = true <;>
    simp [DsoSnapshot.append_payload_to_envelope_levels, h]

/-- `append_payload` never touches the ring cursor. -/
lemma append_payload_ring (s : DsoSnapshot) (dso : SrDatafeedDso) :
    (s.append_payload dso).ring_sample_count = s.ring_sample_count := by
  unfold DsoSnapshot.append_payload
  by_cases h : s.channel_num > 0 ∧ dso.num_samples ≠ 0
  · rw [if_pos h]
    by_cases h2 : (s.append_data dso.data dso.num_samples s.instant).envelope_en
    · simp only [if_pos h2]
      show (DsoSnapshot.append_payload_to_envelope_levels _ _).ring_sample_count
        = s.ring_sample_count
      rw [build_ring, append_data_ring]
    · simp only [if_neg h2]
      exact append_data_ring s dso.data dso.num_samples s.instant
  · rw [if_neg h]

/-- `enable_envelope` never touches the ring cursor. -/
lemma enable_envelope_ring (s : DsoSnapshot) (en : Bool) :
    (s.enable_envelope en).ring_sample_count = s.ring_sample_count := by
  unfold DsoSnapshot.enable_envelope
  by_cases h : (!s.envelope_done && en) = true
  · simp only [if_pos h]
    exact build_ring s true
  · simp only [if_neg h]

/-- `first_payload` never touches the ring cursor, on any of its paths. -/
lemma first_payload_ring (s : DsoSnapshot) (dso : SrDatafeedDso)
    (total : Nat) (ch : List (Int × Bool)) (inst : Bool)
    (oracle : Nat → Bool) :
    (s.first_payload dso total ch inst oracle).ring_sample_count
      = s.ring_sample_count := by
  simp only [DsoSnapshot.first_payload]
  split
  · split
    · split
      · simp [append_payload_ring, free_data_ring, free_envelop_ring]
      · simp [free_data_ring, free_envelop_ring]
    · simp [append_payload_ring, free_data_ring]
  · simp [append_payload_ring]

/-- In every reachable state the ring cursor is still zero: the only writer
is `init_all`, which zeroes it. -/
lemma reachable_ring_zero {s : DsoSnapshot} (h : Reachable s) :
    s.ring_sample_count = 0 := by
  induction h with
  | mk => rfl
  | init _ ih => simp [DsoSnapshot.init, DsoSnapshot.init_all]
  | clear _ ih => simp [DsoSnapshot.clear, DsoSnapshot.init_all]
  | first_payload dso total ch inst oracle _ hch ih =>
    rw [first_payload_ring]; exact ih
  | append_payload dso _ ih => rw [append_payload_ring]; exact ih
  | enable_envelope en _ ih => rw [enable_envelope_ring]; exact ih
  | capture_ended _ ih => simpa [DsoSnapshot.capture_ended] using ih

/-- C9: in every state reachable through setup, appends, envelope toggles,
clear (and init / capture-end), the write path never advances the ring
cursor — `_ring_sample_count` stays 0 — so `get_ring_start()` returns 0 and
`get_ring_end()` returns 0 when `_sample_count == 0` and
`_total_sample_count - 1` otherwise, matching the spec's window formulas on
the reachable, never-wrapped states. -/
theorem reachable_ring_window_formulas (s : DsoSnapshot) (h : Reachable s) :
    s.ring_sample_count = 0 ∧ s.get_ring_start = 0 ∧
    s.get_ring_end = if s.sample_count = 0 then 0
      else s.total_sample_count - 1 := by
  have hr := reachable_ring_zero h
  refine ⟨hr, ?_, ?_⟩
  · unfold DsoSnapshot.get_ring_start DsoSnapshot.ring_start
    split
    · rfl
    · exact hr
  · unfold DsoSnapshot.get_ring_end DsoSnapshot.ring_end
    rw [hr]
    simp

/-- C9 witness: the window formulas at the freshly constructed snapshot. -/
theorem reachable_ring_window_formulas_witness :
    DsoSnapshot.mkNew.get_ring_start = 0 ∧
    DsoSnapshot.mkNew.get_ring_end = 0 := by
  have h := reachable_ring_window_formulas DsoSnapshot.mkNew Reachable.mk
  exact ⟨h.2.1, by rw [h.2.2]; rfl⟩

/-! ## C3 -/

/-- Reading back the level just stored. -/
lemma setLvl_eq (lvls : Nat → Nat → Envelope) (i l : Nat) (e : Envelope) :
    setLvl lvls i l e i l = e := by
  simp [setLvl]

/-- Reading any other level. -/
lemma setLvl_ne (lvls : Nat → Nat → Envelope) (i l : Nat) (e : Envelope)
    (a b : Nat) (h : ¬(a = i ∧ b = l)) : setLvl lvls i l e a b = lvls a b := by
  simp [setLvl, h]

/-- The higher-level loop touches only channel `i` at levels `≥ level`. -/
lemma buildHigher_frame (header : Bool) (i : Nat) :
    ∀ (fuel level : Nat) (lvls : Nat → Nat → Envelope) (a b : Nat),
      a ≠ i ∨ b < level →
      buildHigher header i lvls level fuel a b = lvls a b := by
  intro fuel
  induction fuel with
  | zero => intro level lvls a b h; rfl
  | succ n ih =>
    intro level lvls a b h
    simp only [buildHigher]
    split
    · exact setLvl_ne _ _ _ _ _ _ (by rcases h with h | h <;> omega)
    · rw [ih (level + 1) _ a b (by rcases h with h | h <;> omega)]
      exact setLvl_ne _ _ _ _ _ _ (by rcases h with h | h <;> omega)

/-- Starting from zero-length levels above `level`, the higher-level loop
establishes the division chain at every level it covers: either a level was
written with `floor(previous / EnvelopeScaleFactor)`, or the loop broke at a
zero length and everything above is still zero. -/
lemma buildHigher_law (header : Bool) (i : Nat) :
    ∀ (fuel level : Nat) (lvls : Nat → Nat → Envelope),
      0 < level →
      (∀ L, level ≤ L → L < level + fuel → (lvls i L).length = 0) →
      ∀ L, level ≤ L → L < level + fuel →
        (buildHigher header i lvls level fuel i L).length =
        (buildHigher header i lvls level fuel i (L - 1)).length
          / EnvelopeScaleFactor := by
  intro fuel
  induction fuel with
  | zero => intro level lvls hpos h0 L hL1 hL2; omega
  | succ n ih =>
    intro level lvls hpos h0 L hL1 hL2
    simp only [buildHigher]
    split
    · -- new length at `level` is zero: loop breaks after storing it
      rename_i hz
      by_cases hLl : L = level
      · subst hLl
        rw [setLvl_eq, setLvl_ne _ _ _ _ _ _ (by omega)]
      · have hLgt : level < L := by omega
        rw [setLvl_ne _ _ _ _ _ _ (by omega)]
        by_cases hLl1 : L - 1 = level
        · rw [hLl1, setLvl_eq]
          have h1 : (lvls i L).length = 0 := h0 L (by omega) (by omega)
          simp [h1, hz]
        · rw [setLvl_ne _ _ _ _ _ _ (by omega)]
          have h1 : (lvls i L).length = 0 := h0 L (by omega) (by omega)
          have h2 : (lvls i (L - 1)).length = 0 := h0 (L - 1) (by omega) (by omega)
          simp [h1, h2]
    · -- new length nonzero: the level is written and the loop continues
      rename_i hz
      by_cases hLl : L = level
      · subst hLl
        rw [buildHigher_frame header i n (L + 1) _ i L (Or.inr (by omega)),
          buildHigher_frame header i n (L + 1) _ i (L - 1) (Or.inr (by omega)),
          setLvl_eq, setLvl_ne _ _ _ _ _ _ (by omega)]
        simp [reallocate_length]
      · have hLgt : level < L := by omega
        have h0' : ∀ L', level + 1 ≤ L' → L' < level + 1 + n →
            ((setLvl lvls i level
              { reallocate_envelope
                  { lvls i level with
                    length := (lvls i (level - 1)).length / EnvelopeScaleFactor }
                with
                samples := writeEntries (reallocate_envelope
                  { lvls i level with
                    length := (lvls i (level - 1)).length / EnvelopeScaleFactor
                  }).samples
                  (if (lvls i (level - 1)).length / EnvelopeScaleFactor =
                      (if header then 0 else (lvls i level).length) then 0
                    else (if header then 0 else (lvls i level).length))
                  (reallocate_envelope
                    { lvls i level with
                      length := (lvls i (level - 1)).length / EnvelopeScaleFactor
                    }).length
                  (envEntryL ((lvls i (level - 1)).samples.getD
                    (fun _ => { min := 0, max := 0 }))) }) i L').length = 0 := by
          intro L' hA hB
          rw [setLvl_ne _ _ _ _ _ _ (by omega)]
          exact h0 L' (by omega) (by omega)
        exact ih (level + 1) _ (by omega) h0' L (by omega) (by omega)

/-- The per-channel body touches only channel `i`. -/
lemma buildChannel_frame (dat : Option (Nat → Nat)) (ch sc : Nat)
    (header : Bool) (lvls : Nat → Nat → Envelope) (i a b : Nat) (h : a ≠ i) :
    (buildChannel dat ch sc header lvls i).1 a b = lvls a b := by
  simp only [buildChannel]
  split
  · dsimp only
    exact setLvl_ne _ _ _ _ _ _ (by omega)
  · dsimp only
    rw [buildHigher_frame header i (ScaleStepCount - 1) 1 _ a b (Or.inl h)]
    exact setLvl_ne _ _ _ _ _ _ (by omega)

/-- On a channel whose levels are all empty, the body stores
`floor(_sample_count / EnvelopeScaleFactor)` at level 0 and the division
chain at every higher level. -/
lemma buildChannel_law (dat : Option (Nat → Nat)) (ch sc : Nat)
    (header : Bool) (lvls : Nat → Nat → Envelope) (i : Nat)
    (h0 : ∀ b, (lvls i b).length = 0) :
    ((buildChannel dat ch sc header lvls i).1 i 0).length
      = sc / EnvelopeScaleFactor ∧
    ∀ L, 0 < L → L < ScaleStepCount →
      ((buildChannel dat ch sc header lvls i).1 i L).length =
      ((buildChannel dat ch sc header lvls i).1 i (L - 1)).length
        / EnvelopeScaleFactor := by
  simp only [buildChannel]
  split
  · -- early return: e0.length = sc / SF = 0 was stored
    rename_i hz
    constructor
    · dsimp only
      rw [setLvl_eq]
    · intro L hL1 hL2
      dsimp only
      rw [setLvl_ne _ _ _ _ _ _ (by omega)]
      by_cases hL0 : L - 1 = 0
      · rw [hL0, setLvl_eq]
        simp [h0 L, hz]
      · rw [setLvl_ne _ _ _ _ _ _ (by omega)]
        simp [h0 L, h0 (L - 1)]
  · -- level 0 written, higher levels cascaded
    rename_i hz
    constructor
    · dsimp only
      rw [buildHigher_frame header i (ScaleStepCount - 1) 1 _ i 0
        (Or.inr (by omega)), setLvl_eq]
      simp [reallocate_length]
    · intro L hL1 hL2
      dsimp only
      apply buildHigher_law header i (ScaleStepCount - 1) 1 _ (by omega)
      · intro L' hA hB
        rw [setLvl_ne _ _ _ _ _ _ (by omega)]
        exact h0 L'
      · omega
      · simp only [ScaleStepCount] at hL2 ⊢
        omega

/-- The channel loop touches only channels `≥ i`. -/
lemma buildChannels_frame (dat : Option (Nat → Nat)) (ch sc : Nat)
    (header : Bool) :
    ∀ (fuel i : Nat) (lvls : Nat → Nat → Envelope) (a b : Nat), a < i →
      (buildChannels dat ch sc header lvls i fuel).1 a b = lvls a b := by
  intro fuel
  induction fuel with
  | zero => intro i lvls a b h; rfl
  | succ n ih =>
    intro i lvls a b h
    simp only [buildChannels]
    split
    · dsimp only
      exact buildChannel_frame dat ch sc header lvls i a b (by omega)
    · rw [ih (i + 1) _ a b (by omega)]
      exact buildChannel_frame dat ch sc header lvls i a b (by omega)

/-- The channel loop establishes the length law on every channel it covers,
whether or not the early `return` fires (if it fires, `sc / 256 = 0` and the
untouched all-zero channels satisfy the law trivially). -/
lemma buildChannels_law (dat : Option (Nat → Nat)) (ch sc : Nat)
    (header : Bool) :
    ∀ (fuel i : Nat) (lvls : Nat → Nat → Envelope),
      (∀ a b, i ≤ a → (lvls a b).length = 0) →
      ∀ a, i ≤ a → a < i + fuel →
        (((buildChannels dat ch sc header lvls i fuel).1 a 0).length
          = sc / EnvelopeScaleFactor) ∧
        ∀ L, 0 < L → L < ScaleStepCount →
          ((buildChannels dat ch sc header lvls i fuel).1 a L).length =
          ((buildChannels dat ch sc header lvls i fuel).1 a (L - 1)).length
            / EnvelopeScaleFactor := by
  intro fuel
  induction fuel with
  | zero => intro i lvls h0 a ha1 ha2; omega
  | succ n ih =>
    intro i lvls h0 a ha1 ha2
    simp only [buildChannels]
    split
    · -- a channel hit the early return: sc / SF = 0
      rename_i hz
      have hsz : sc / EnvelopeScaleFactor = 0 :=
        (buildChannel_early_iff dat ch sc header lvls i).1 hz
      dsimp only
      by_cases hai : a = i
      · subst hai
        exact buildChannel_law dat ch sc header lvls a (fun b => h0 a b ha1)
      · have hfr : ∀ b, (buildChannel dat ch sc header lvls i).1 a b
            = lvls a b :=
          fun b => buildChannel_frame dat ch sc header lvls i a b hai
        refine ⟨by rw [hfr, h0 a 0 ha1, hsz], ?_⟩
        intro L hL1 hL2
        rw [hfr, hfr, h0 a L ha1, h0 a (L - 1) ha1]
        simp
    · -- this channel finished; the loop moves on
      rename_i hz
      have h0' : ∀ a' b, i + 1 ≤ a' →
          ((buildChannel dat ch sc header lvls i).1 a' b).length = 0 := by
        intro a' b ha'
        rw [buildChannel_frame dat ch sc header lvls i a' b (by omega)]
        exact h0 a' b (by omega)
      by_cases hai : a = i
      · subst hai
        have hlaw := buildChannel_law dat ch sc header lvls a
          (fun b => h0 a b ha1)
        have hfr : ∀ b, (buildChannels dat ch sc header
            (buildChannel dat ch sc header lvls a).1 (a + 1) n).1 a b
            = (buildChannel dat ch sc header lvls a).1 a b :=
          fun b => buildChannels_frame dat ch sc header n (a + 1) _ a b
            (by omega)
        refine ⟨by rw [hfr, hlaw.1], ?_⟩
        intro L hL1 hL2
        rw [hfr, hfr]
        exact hlaw.2 L hL1 hL2
      · exact ih (i + 1) _ h0' a (by omega) (by omega)

/-- C3 (amended): after a full (header) envelope build starting from an
empty pyramid (every level length zero, as after setup or clear), for every
active channel the level-0 valid length is `floor(n / 256)` and every
higher level's valid length is `floor(previous level / 256)`, with
`EnvelopeScaleFactor = 256`. -/
theorem header_build_length_law_from_empty (s : DsoSnapshot)
    (h0 : ∀ a b, (s.envelope_levels a b).length = 0) :
    ∀ c, c < s.channel_num →
      (((s.append_payload_to_envelope_levels true).envelope_levels c 0).length
        = s.sample_count / EnvelopeScaleFactor) ∧
      ∀ L, 0 < L → L < ScaleStepCount →
        ((s.append_payload_to_envelope_levels true).envelope_levels c L).length
        = ((s.append_payload_to_envelope_levels true).envelope_levels c
            (L - 1)).length / EnvelopeScaleFactor := by
  have hlv : (s.append_payload_to_envelope_levels true).envelope_levels
      = (buildChannels s.data s.channel_num s.sample_count true
          s.envelope_levels 0 s.channel_num).1 := by
    by_cases h : (buildChannels s.data s.channel_num s.sample_count true
        s.envelope_levels 0 s.channel_num).2 = true <;>
      simp [DsoSnapshot.append_payload_to_envelope_levels, h]
  intro c hc
  rw [hlv]
  exact buildChannels_law s.data s.channel_num s.sample_count true
    s.channel_num 0 s.envelope_levels (fun a b _ => h0 a b) c
    (Nat.zero_le c) (by omega)

/-- A reachable snapshot exhibiting a stale pyramid level: a replace-mode
capture of `2^32` samples is fully built (levels 16777216, 65536, 256, 1,
0, ...), then a `2^16`-sample chunk with `samplerate_tog = true` forces a
full header rebuild at the smaller count: level 0 becomes 256, level 1
becomes 1, level 2 becomes 0 and the loop breaks — level 3 retains its old
length 1. -/
def staleLevelState : DsoSnapshot :=
  ((DsoSnapshot.mkNew.first_payload
      { data := fun _ => 0, num_samples := 2 ^ 32, samplerate_tog := false }
      (2 ^ 32) [(0, true)] false allocAllOk).enable_envelope
    true).append_payload
    { data := fun _ => 0, num_samples := 2 ^ 16, samplerate_tog := true }

/-- C3 counterexample: after the full header build in `staleLevelState`,
channel 0 violates the claimed law at level 3: its valid length is the
stale 1, not `floor(level2 / 256) = 0`, because the build loop breaks at
the first zero-length level and leaves the levels above untouched. -/
theorem header_build_stale_level_breaks_length_law :
    ¬((staleLevelState.envelope_levels 0 3).length =
      (staleLevelState.envelope_levels 0 2).length / EnvelopeScaleFactor) := by
  decide

/-- A fresh single-channel snapshot holding 70000 samples. -/
def lawDemoState : DsoSnapshot :=
  { DsoSnapshot.mkNew with
    sample_count := 70000, total_sample_count := 70000, channel_num := 1,
    data := some (fun _ => 0) }

/-- C3 witness: the amended law at 70000 samples, level 1 versus level 0
(273 / 256 = 1). -/
theorem header_build_length_law_witness :
    ((lawDemoState.append_payload_to_envelope_levels true).envelope_levels
      0 1).length =
    ((lawDemoState.append_payload_to_envelope_levels true).envelope_levels
      0 0).length / EnvelopeScaleFactor := by
  exact ((header_build_length_law_from_empty lawDemoState
    (fun a b => rfl) 0 (by decide)).2 1 (by decide) (by decide))
